import Mathlib

/-!
Shallow embedding of the RocksDB blob-log format
(src/utilities/blob_db/blob_log_format.h) together with models of the
record codec and writer described by the specification where the
defining translation units are not part of this source tree.

Machine integers are embedded as Nat with explicit reductions modulo
2 ^ w where the C++ code can overflow; byte strings are lists of Nat.
-/

/-- Source blob_log_format.h:28:
constexpr uint64_t kNoExpiration = numeric_limits of uint64_t, max(). -/
def kNoExpiration : Nat := 2 ^ 64 - 1

/-- The value of numeric_limits of uint32_t, max(), which the source
compares the 64-bit TTL field against in BlobLogRecord::HasTTL. -/
def uint32Max : Nat := 2 ^ 32 - 1

/-- Source blob_log_format.h:32 (enum RecordType). -/
def kFullType : Nat := 0

/-- Source blob_log_format.h:35 (enum RecordType). -/
def kFirstType : Nat := 1

/-- Source blob_log_format.h:36 (enum RecordType). -/
def kMiddleType : Nat := 2

/-- Source blob_log_format.h:37 (enum RecordType). -/
def kLastType : Nat := 3

/-- Source blob_log_format.h:38 (enum RecordType): kMaxRecordType = kLastType. -/
def kMaxRecordType : Nat := kLastType

/-- Source blob_log_format.h:42 (enum RecordSubType). -/
def kRegularType : Nat := 0

/-- Source blob_log_format.h:43 (enum RecordSubType). -/
def kTTLType : Nat := 1

/-- Source blob_log_format.h:44 (enum RecordSubType). -/
def kTimestampType : Nat := 2

/-- Modelled from the spec: the defining translation unit of the single
extern constant declared at blob_log_format.h:47
(extern const uint32_t kMagicNumber) is not under src/, so its numeric
value is modelled here; the source header declares exactly one magic
constant for the whole format, with no separate footer constant. -/
def kMagicNumber : Nat := 2395959

/-- Source blob_log_format.h:55-110, class BlobLogHeader private members:
magic_number_ (uint32), version_ (uint32), compression_
(CompressionType, embedded as Nat), ttl_guess_ and ts_guess_
(unique_ptr to a pair, embedded as Option). -/
structure BlobLogHeader where
  magic_number : Nat
  version : Nat
  compression : Nat
  ttl_guess : Option (Nat × Nat)
  ts_guess : Option (Nat × Nat)
  deriving DecidableEq, Repr

/-- Source blob_log_format.h:77:
static const size_t kHeaderSize = 4 + 4 + 4 + 8 * 2 + 8 * 2. -/
def BlobLogHeader.kHeaderSize : Nat := 4 + 4 + 4 + 8 * 2 + 8 * 2

/-- Source blob_log_format.h:91-96: return (0, 0) when ttl_guess_ is
null, otherwise the dereferenced pair. -/
def BlobLogHeader.ttl_range (h : BlobLogHeader) : Nat × Nat :=
  match h.ttl_guess with
  | none => (0, 0)
  | some r => r

/-- Source blob_log_format.h:98-103: return (0, 0) when ts_guess_ is
null, otherwise the dereferenced pair. -/
def BlobLogHeader.ts_range (h : BlobLogHeader) : Nat × Nat :=
  match h.ts_guess with
  | none => (0, 0)
  | some r => r

/-- Source blob_log_format.h:105: HasTTL is ttl_guess_ != nullptr. -/
def BlobLogHeader.HasTTL (h : BlobLogHeader) : Bool :=
  h.ttl_guess.isSome

/-- Source blob_log_format.h:107: HasTimestamp is ts_guess_ != nullptr. -/
def BlobLogHeader.HasTimestamp (h : BlobLogHeader) : Bool :=
  h.ts_guess.isSome

/-- Source blob_log_format.h:114-176, class BlobLogFooter private
members: magic_number_ (uint32, initialized 0), blob_count_ (uint64,
initialized 0), ttl_range_ and ts_range_ (unique_ptr, embedded as
Option, default null), sn_range_ (a plain pair). -/
structure BlobLogFooter where
  magic_number : Nat
  blob_count : Nat
  ttl_range : Option (Nat × Nat)
  ts_range : Option (Nat × Nat)
  sn_range : Nat × Nat
  deriving DecidableEq, Repr

/-- Source blob_log_format.h:137:
static const size_t kFooterSize = 4 + 4 + 8 + (8 * 2) + (8 * 2) + (8 * 2). -/
def BlobLogFooter.kFooterSize : Nat := 4 + 4 + 8 + (8 * 2) + (8 * 2) + (8 * 2)

/-- Source blob_log_format.h:139: HasTTL is the boolean conversion of
the ttl_range_ pointer. -/
def BlobLogFooter.HasTTL (f : BlobLogFooter) : Bool :=
  f.ttl_range.isSome

/-- Source blob_log_format.h:141: HasTimestamp is the boolean
conversion of the ts_range_ pointer. -/
def BlobLogFooter.HasTimestamp (f : BlobLogFooter) : Bool :=
  f.ts_range.isSome

/-- Source blob_log_format.h:143: GetBlobCount returns blob_count_. -/
def BlobLogFooter.GetBlobCount (f : BlobLogFooter) : Nat :=
  f.blob_count

/-- Source blob_log_format.h:145-150. The branch for a non-null
ttl_range_ evaluates the dereference expression without a return
statement, so control falls through and the function returns (0, 0)
on both paths; the match below reproduces that behaviour faithfully. -/
def BlobLogFooter.GetTTLRange (f : BlobLogFooter) : Nat × Nat :=
  match f.ttl_range with
  | some _ => (0, 0)
  | none => (0, 0)

/-- Source blob_log_format.h:152-157: returns the dereferenced
ts_range_ when non-null, else (0, 0). -/
def BlobLogFooter.GetTimeRange (f : BlobLogFooter) : Nat × Nat :=
  match f.ts_range with
  | some r => r
  | none => (0, 0)

/-- Source blob_log_format.h:159: GetSNRange returns sn_range_. -/
def BlobLogFooter.GetSNRange (f : BlobLogFooter) : Nat × Nat :=
  f.sn_range

/-- Source blob_log_format.h:162-167: member initializers of
BlobLogFooter give magic_number_ = 0, blob_count_ = 0, null range
pointers and a value-initialized (0, 0) sequence-number pair. -/
def defaultBlobLogFooter : BlobLogFooter :=
  ⟨0, 0, none, none, (0, 0)⟩

/-- Source blob_log_format.h:180-249, class BlobLogRecord fields:
checksum_, header_cksum_ (uint32), key_size_ (uint32), blob_size_,
time_val_, ttl_val_ (uint64), type_, subtype_ (char), and the key and
blob byte strings. -/
structure BlobLogRecord where
  checksum : Nat
  header_cksum : Nat
  key_size : Nat
  blob_size : Nat
  time_val : Nat
  ttl_val : Nat
  type : Nat
  subtype : Nat
  key : List Nat
  blob : List Nat
  deriving DecidableEq, Repr

/-- Source blob_log_format.h:217:
static const size_t kHeaderSize = 4 + 4 + 8 + 8 + 4 + 8 + 1 + 1. -/
def BlobLogRecord.kHeaderSize : Nat := 4 + 4 + 8 + 8 + 4 + 8 + 1 + 1

/-- Source blob_log_format.h:232-234: HasTTL compares the uint64 field
ttl_val_ against numeric_limits of uint32_t, max() (the uint32 maximum,
promoted to uint64 in the comparison). -/
def BlobLogRecord.HasTTL (r : BlobLogRecord) : Bool :=
  r.ttl_val != uint32Max

/-- Source blob_log_format.h:236. -/
def BlobLogRecord.GetTTL (r : BlobLogRecord) : Nat :=
  r.ttl_val

/-- Source blob_log_format.h:238. -/
def BlobLogRecord.GetTimeVal (r : BlobLogRecord) : Nat :=
  r.time_val

/-- Source blob_log_format.h:228. -/
def BlobLogRecord.GetKeySize (r : BlobLogRecord) : Nat :=
  r.key_size

/-- Source blob_log_format.h:230. -/
def BlobLogRecord.GetBlobSize (r : BlobLogRecord) : Nat :=
  r.blob_size

/-- Little-endian fixed-width serialization of a machine integer into
w bytes, reducing modulo 2 ^ (8 * w) as the C++ fixed-width stores do. -/
def putFixed (w n : Nat) : List Nat :=
  match w with
  | 0 => []
  | Nat.succ w2 => (n % 256) :: putFixed w2 (n / 256)

/-- Little-endian fixed-width deserialization, the inverse of putFixed. -/
def getFixed (bs : List Nat) : Nat :=
  match bs with
  | [] => 0
  | b :: rest => b + 256 * getFixed rest

/-- Modelled from the spec: the concrete 32-bit checksum implementation
used by the record codec is not under src/ (only the checksum fields
and accessors are declared); it is modelled as an arbitrary but fixed
32-bit fold over the covered bytes. -/
def crc32 (bs : List Nat) : Nat :=
  bs.foldl (fun a b => (a * 131 + b) % 2 ^ 32) 0

inductive CorruptionError where
  | TruncatedInput
  | BadMagic
  | UnsupportedVersion
  | InvalidRange
  | HeaderChecksumMismatch
  | PayloadChecksumMismatch
  deriving DecidableEq, Repr

/-- The TTL field stored in the record header: the TTL value when one
was supplied, otherwise the kNoExpiration sentinel. -/
def ttlFieldOf : Option Nat → Nat
  | some t => t
  | none => kNoExpiration

/-- The record subtype written at encode time: kTTLType when a TTL was
supplied, otherwise kRegularType. -/
def subTypeOf : Option Nat → Nat
  | some _ => kTTLType
  | none => kRegularType

/-- The 30 bytes of fixed record-header metadata that follow the two
checksums: key_size(4), blob_size(8), ttl(8), timestamp(8), type(1),
subtype(1), in the order documented at blob_log_format.h:210-216. -/
def recordMetaBytes (keyLen blobLen ttl ts ty st : Nat) : List Nat :=
  putFixed 4 keyLen ++ putFixed 8 blobLen ++ putFixed 8 ttl ++
    putFixed 8 ts ++ putFixed 1 ty ++ putFixed 1 st

/-- Modelled from the spec: the encoder body is not under src/. It
computes the header checksum over the fixed metadata fields and the
payload checksum over key and blob bytes, then emits header-checksum,
payload-checksum, the fixed header fields, the key bytes and the blob
bytes; the record type defaults to kFullType at encode time and the
sequence number is not part of the record wire bytes. -/
def recordEncode (key blob : List Nat) (ttlOpt : Option Nat) (ts sq : Nat) : List Nat :=
  putFixed 4 (crc32 (recordMetaBytes key.length blob.length (ttlFieldOf ttlOpt)
    ts kFullType (subTypeOf ttlOpt))) ++
  putFixed 4 (crc32 (key ++ blob)) ++
  recordMetaBytes key.length blob.length (ttlFieldOf ttlOpt) ts kFullType
    (subTypeOf ttlOpt) ++ key ++ blob

/-- Modelled from the spec: the body of BlobLogRecord::DecodeHeaderFrom
(declared at blob_log_format.h:248) is not under src/. It decodes only
the fixed portion of the record header, validating the header checksum
over the metadata bytes before trusting the declared lengths; failures
are TruncatedInput and HeaderChecksumMismatch. The key and blob byte
strings of the returned record are left empty, as the C++ fills them
only later from the payload. -/
def DecodeHeaderFrom (h : List Nat) : Except CorruptionError BlobLogRecord :=
  if h.length < BlobLogRecord.kHeaderSize then
    Except.error CorruptionError.TruncatedInput
  else if crc32 ((h.drop 8).take 30) ≠ getFixed (h.take 4) then
    Except.error CorruptionError.HeaderChecksumMismatch
  else
    Except.ok
      ⟨getFixed ((h.drop 4).take 4), getFixed (h.take 4),
        getFixed (((h.drop 8).take 30).take 4),
        getFixed ((((h.drop 8).take 30).drop 4).take 8),
        getFixed ((((h.drop 8).take 30).drop 20).take 8),
        getFixed ((((h.drop 8).take 30).drop 12).take 8),
        getFixed ((((h.drop 8).take 30).drop 28).take 1),
        getFixed ((((h.drop 8).take 30).drop 29).take 1),
        [], []⟩

/-- Modelled from the spec: the payload decoder is not under src/. It
requires exactly key_size + blob_size bytes, splits them, and validates
the payload checksum; failures are TruncatedInput and
PayloadChecksumMismatch. -/
def decodePayload (r : BlobLogRecord) (bs : List Nat) :
    Except CorruptionError (List Nat × List Nat) :=
  if bs.length ≠ r.key_size + r.blob_size then
    Except.error CorruptionError.TruncatedInput
  else if crc32 (bs.take r.key_size ++ bs.drop r.key_size) ≠ r.checksum then
    Except.error CorruptionError.PayloadChecksumMismatch
  else
    Except.ok (bs.take r.key_size, bs.drop r.key_size)

/-- The record a successful header decode of an encoded record should
yield, spelled out field by field. -/
def roundtripRecord (key blob : List Nat) (ttlOpt : Option Nat) (ts : Nat) :
    BlobLogRecord :=
  ⟨crc32 (key ++ blob),
    crc32 (recordMetaBytes key.length blob.length (ttlFieldOf ttlOpt) ts
      kFullType (subTypeOf ttlOpt)),
    key.length, blob.length, ts, ttlFieldOf ttlOpt,
    kFullType, subTypeOf ttlOpt, [], []⟩

inductive AppendError where
  | SequenceOrderViolation
  | WriterClosed
  deriving DecidableEq, Repr

/-- Modelled from the spec: the Writer implementation is not under
src/. Its state is the running aggregates for the open file: whether
the file has been closed, the record count, and the optional
sequence-number, TTL and timestamp ranges, plus the byte offset of the
next write. -/
structure WriterState where
  closed : Bool
  blob_count : Nat
  sn_range : Option (Nat × Nat)
  ttl_range : Option (Nat × Nat)
  ts_range : Option (Nat × Nat)
  offset : Nat
  deriving DecidableEq, Repr

/-- Expand an optional running range with an optional new value. -/
def expandRange : Option (Nat × Nat) → Option Nat → Option (Nat × Nat)
  | none, none => none
  | none, some v => some (v, v)
  | some r, none => some r
  | some (lo, hi), some v => some (min lo v, max hi v)

/-- Modelled from the spec: a freshly opened writer has written the
44-byte file header, appended nothing, and has every running range
absent. -/
def openWriter : WriterState :=
  ⟨false, 0, none, none, none, BlobLogHeader.kHeaderSize⟩

/-- Modelled from the spec: the 44-byte header written speculatively at
open time carries the magic constant, version 1 and absent range hints. -/
def writtenHeader (compression : Nat) : BlobLogHeader :=
  ⟨kMagicNumber, 1, compression, none, none⟩

/-- Modelled from the spec: Writer append requires the sequence number
to be at least the maximum appended so far; a decrease fails with
SequenceOrderViolation before any aggregate is touched. On success it
updates the ranges and count and returns the record's starting offset. -/
def WriterState.append (w : WriterState) (key blob : List Nat)
    (ttlOpt : Option Nat) (ts sq : Nat) :
    WriterState × Except AppendError Nat :=
  if w.closed then
    (w, Except.error AppendError.WriterClosed)
  else
    match w.sn_range with
    | some (lo, hi) =>
      if sq < hi then
        (w, Except.error AppendError.SequenceOrderViolation)
      else
        (⟨false, w.blob_count + 1, some (lo, sq),
          expandRange w.ttl_range ttlOpt, expandRange w.ts_range (some ts),
          w.offset + (BlobLogRecord.kHeaderSize + key.length + blob.length)⟩,
          Except.ok w.offset)
    | none =>
      (⟨false, w.blob_count + 1, some (sq, sq),
        expandRange w.ttl_range ttlOpt, expandRange w.ts_range (some ts),
        w.offset + (BlobLogRecord.kHeaderSize + key.length + blob.length)⟩,
        Except.ok w.offset)

/-- Modelled from the spec: Writer close emits the footer carrying the
magic constant, the exact aggregated ranges and the record count, and
marks the writer closed; a second close fails with WriterClosed. -/
def WriterState.close (w : WriterState) :
    WriterState × Except AppendError BlobLogFooter :=
  if w.closed then
    (w, Except.error AppendError.WriterClosed)
  else
    (⟨true, w.blob_count, w.sn_range, w.ttl_range, w.ts_range, w.offset⟩,
      Except.ok
        ⟨kMagicNumber, w.blob_count, w.ttl_range, w.ts_range,
          (match w.sn_range with
           | some r => r
           | none => (0, 0))⟩)

theorem putFixed_length (w n : Nat) : (putFixed w n).length = w := by
  induction w generalizing n with
  | zero => rfl
  | succ w2 ih => simp [putFixed, ih]

theorem getFixed_putFixed (w n : Nat) (h : n < 256 ^ w) :
    getFixed (putFixed w n) = n := by
  induction w generalizing n with
  | zero =>
    simp only [pow_zero, Nat.lt_one_iff] at h
    simp [putFixed, getFixed, h]
  | succ w2 ih =>
    have hdiv : n / 256 < 256 ^ w2 := by
      rw [Nat.div_lt_iff_lt_mul (by norm_num : 0 < 256)]
      calc n < 256 ^ (w2 + 1) := h
        _ = 256 ^ w2 * 256 := by rw [pow_succ]
    simp only [putFixed, getFixed, ih (n / 256) hdiv]
    exact Nat.mod_add_div n 256

theorem take_append_len {α : Type} {w : Nat} (l1 l2 : List α)
    (h : l1.length = w) : (l1 ++ l2).take w = l1 := by
  subst h; exact List.take_left l1 l2

theorem drop_append_len {α : Type} {w : Nat} (l1 l2 : List α)
    (h : l1.length = w) : (l1 ++ l2).drop w = l2 := by
  subst h; exact List.drop_left l1 l2

theorem getFixed_take (w n : Nat) (rest : List Nat) (h : n < 256 ^ w) :
    getFixed ((putFixed w n ++ rest).take w) = n := by
  rw [take_append_len _ _ (putFixed_length w n), getFixed_putFixed w n h]

theorem getFixed_take_all (w n : Nat) (h : n < 256 ^ w) :
    getFixed ((putFixed w n).take w) = n := by
  rw [List.take_of_length_le (le_of_eq (putFixed_length w n))]
  exact getFixed_putFixed w n h

theorem drop_putFixed (w n : Nat) (rest : List Nat) :
    (putFixed w n ++ rest).drop w = rest :=
  drop_append_len _ _ (putFixed_length w n)

theorem crc32_fold_lt (bs : List Nat) (a : Nat) (ha : a < 2 ^ 32) :
    List.foldl (fun x b => (x * 131 + b) % 2 ^ 32) a bs < 2 ^ 32 := by
  induction bs generalizing a with
  | nil => exact ha
  | cons b rest ih => exact ih _ (Nat.mod_lt _ (by norm_num))

theorem crc32_lt (bs : List Nat) : crc32 bs < 2 ^ 32 :=
  crc32_fold_lt bs 0 (by norm_num)

theorem recordMetaBytes_length (ks bs ttl ts ty st : Nat) :
    (recordMetaBytes ks bs ttl ts ty st).length = 30 := by
  simp [recordMetaBytes, putFixed_length]

theorem recordMetaBytes_parse (ks bs ttl ts ty st : Nat)
    (h1 : ks < 256 ^ 4) (h2 : bs < 256 ^ 8) (h3 : ttl < 256 ^ 8)
    (h4 : ts < 256 ^ 8) (h5 : ty < 256 ^ 1) (h6 : st < 256 ^ 1) :
    getFixed ((recordMetaBytes ks bs ttl ts ty st).take 4) = ks ∧
    getFixed (((recordMetaBytes ks bs ttl ts ty st).drop 4).take 8) = bs ∧
    getFixed (((recordMetaBytes ks bs ttl ts ty st).drop 12).take 8) = ttl ∧
    getFixed (((recordMetaBytes ks bs ttl ts ty st).drop 20).take 8) = ts ∧
    getFixed (((recordMetaBytes ks bs ttl ts ty st).drop 28).take 1) = ty ∧
    getFixed (((recordMetaBytes ks bs ttl ts ty st).drop 29).take 1) = st := by
  unfold recordMetaBytes
  simp only [List.append_assoc]
  refine ⟨getFixed_take 4 ks _ h1, ?_, ?_, ?_, ?_, ?_⟩
  · rw [drop_putFixed]
    exact getFixed_take 8 bs _ h2
  · rw [show (12 : Nat) = 4 + 8 from rfl, ← List.drop_drop, drop_putFixed,
      drop_putFixed]
    exact getFixed_take 8 ttl _ h3
  · rw [show (20 : Nat) = 4 + (8 + 8) from rfl, ← List.drop_drop,
      drop_putFixed, ← List.drop_drop, drop_putFixed, drop_putFixed]
    exact getFixed_take 8 ts _ h4
  · rw [show (28 : Nat) = 4 + (8 + (8 + 8)) from rfl, ← List.drop_drop,
      drop_putFixed, ← List.drop_drop, drop_putFixed, ← List.drop_drop,
      drop_putFixed, drop_putFixed]
    exact getFixed_take 1 ty _ h5
  · rw [show (29 : Nat) = 4 + (8 + (8 + (8 + 1))) from rfl, ← List.drop_drop,
      drop_putFixed, ← List.drop_drop, drop_putFixed, ← List.drop_drop,
      drop_putFixed, ← List.drop_drop, drop_putFixed, drop_putFixed]
    exact getFixed_take_all 1 st h6

theorem recordEncode_assoc (key blob : List Nat) (ttlOpt : Option Nat)
    (ts sq : Nat) :
    recordEncode key blob ttlOpt ts sq =
      putFixed 4 (crc32 (recordMetaBytes key.length blob.length
        (ttlFieldOf ttlOpt) ts kFullType (subTypeOf ttlOpt))) ++
      (putFixed 4 (crc32 (key ++ blob)) ++
        (recordMetaBytes key.length blob.length (ttlFieldOf ttlOpt) ts
          kFullType (subTypeOf ttlOpt) ++ (key ++ blob))) := by
  unfold recordEncode
  simp only [List.append_assoc]

/-- Claim C4: for all valid inputs (key, blob, optional ttl, timestamp,
sequence number), decoding the header and the payload of the encoded
record reconstructs field values identical to the inputs: the key and
blob bytes, the sizes, the ttl field (the supplied ttl, or the
kNoExpiration sentinel when absent), the timestamp, the type
(kFullType) and the subtype. -/
theorem record_roundtrip (key blob : List Nat) (ttlOpt : Option Nat)
    (ts sq : Nat) (hk : key.length < 2 ^ 32) (hb : blob.length < 2 ^ 64)
    (ht : ttlFieldOf ttlOpt < 2 ^ 64) (hts : ts < 2 ^ 64) :
    DecodeHeaderFrom (recordEncode key blob ttlOpt ts sq) =
      Except.ok (roundtripRecord key blob ttlOpt ts) ∧
    decodePayload (roundtripRecord key blob ttlOpt ts)
      ((recordEncode key blob ttlOpt ts sq).drop BlobLogRecord.kHeaderSize) =
      Except.ok (key, blob) := by
  have e4 : (256 : Nat) ^ 4 = 2 ^ 32 := by norm_num
  have e8 : (256 : Nat) ^ 8 = 2 ^ 64 := by norm_num
  have hmlen : (recordMetaBytes key.length blob.length (ttlFieldOf ttlOpt) ts
      kFullType (subTypeOf ttlOpt)).length = 30 := recordMetaBytes_length _ _ _ _ _ _
  have henc := recordEncode_assoc key blob ttlOpt ts sq
  have hk38 : BlobLogRecord.kHeaderSize = 38 := rfl
  have hdrop4 : (recordEncode key blob ttlOpt ts sq).drop 4 =
      putFixed 4 (crc32 (key ++ blob)) ++
        (recordMetaBytes key.length blob.length (ttlFieldOf ttlOpt) ts
          kFullType (subTypeOf ttlOpt) ++ (key ++ blob)) := by
    rw [henc, drop_putFixed]
  have hdrop8 : (recordEncode key blob ttlOpt ts sq).drop 8 =
      recordMetaBytes key.length blob.length (ttlFieldOf ttlOpt) ts
        kFullType (subTypeOf ttlOpt) ++ (key ++ blob) := by
    rw [show (8 : Nat) = 4 + 4 from rfl, ← List.drop_drop, hdrop4,
      drop_putFixed]
  have htake30 : ((recordEncode key blob ttlOpt ts sq).drop 8).take 30 =
      recordMetaBytes key.length blob.length (ttlFieldOf ttlOpt) ts
        kFullType (subTypeOf ttlOpt) := by
    rw [hdrop8]
    exact take_append_len _ _ hmlen
  have htake4 : getFixed ((recordEncode key blob ttlOpt ts sq).take 4) =
      crc32 (recordMetaBytes key.length blob.length (ttlFieldOf ttlOpt) ts
        kFullType (subTypeOf ttlOpt)) := by
    rw [henc]
    exact getFixed_take 4 _ _ (by rw [e4]; exact crc32_lt _)
  have htake44 : getFixed (((recordEncode key blob ttlOpt ts sq).drop 4).take 4) =
      crc32 (key ++ blob) := by
    rw [hdrop4]
    exact getFixed_take 4 _ _ (by rw [e4]; exact crc32_lt _)
  have hlen : (recordEncode key blob ttlOpt ts sq).length =
      38 + (key.length + blob.length) := by
    rw [henc]
    simp [putFixed_length, hmlen]
    omega
  have hdrop38 : (recordEncode key blob ttlOpt ts sq).drop 38 = key ++ blob := by
    rw [show (38 : Nat) = 8 + 30 from rfl, ← List.drop_drop, hdrop8,
      drop_append_len _ _ hmlen]
  have hty : kFullType < 256 ^ 1 := by norm_num [kFullType]
  have hst : subTypeOf ttlOpt < 256 ^ 1 := by
    cases ttlOpt <;> norm_num [subTypeOf, kTTLType, kRegularType]
  obtain ⟨p1, p2, p3, p4, p5, p6⟩ := recordMetaBytes_parse key.length
    blob.length (ttlFieldOf ttlOpt) ts kFullType (subTypeOf ttlOpt)
    (by rw [e4]; exact hk) (by rw [e8]; exact hb) (by rw [e8]; exact ht)
    (by rw [e8]; exact hts) hty hst
  constructor
  · unfold DecodeHeaderFrom
    rw [if_neg (by rw [hlen, hk38]; omega)]
    rw [htake30, htake4, if_neg (by simp)]
    rw [htake44, p1, p2, p3, p4, p5, p6]
    rfl
  · rw [hk38, hdrop38]
    unfold decodePayload
    unfold roundtripRecord
    rw [if_neg (by simp)]
    rw [List.take_left, List.drop_left, if_neg (by simp)]

/-- Claim C4 witness: the round trip at a concrete record. -/
theorem record_roundtrip_witness :
    DecodeHeaderFrom (recordEncode [1, 2] [3, 4, 5] (some 7) 9 0) =
      Except.ok (roundtripRecord [1, 2] [3, 4, 5] (some 7) 9) ∧
    decodePayload (roundtripRecord [1, 2] [3, 4, 5] (some 7) 9)
      ((recordEncode [1, 2] [3, 4, 5] (some 7) 9 0).drop
        BlobLogRecord.kHeaderSize) =
      Except.ok ([1, 2], [3, 4, 5]) :=
  record_roundtrip [1, 2] [3, 4, 5] (some 7) 9 0 (by decide) (by decide)
    (by decide) (by decide)

/-- Claim C1 counterexample: the record header size constant of the
source is 38, not 42. -/
theorem record_kHeaderSize_ne_42 : BlobLogRecord.kHeaderSize ≠ 42 := by
  decide

/-- Claim C1 (amended): the fixed record header occupies exactly 38
bytes; the constant BlobLogRecord.kHeaderSize equals the sum of the
layout header_checksum(4) + payload_checksum(4) + key_size(4) +
blob_size(8) + ttl(8) + timestamp(8) + type(1) + subtype(1), which is
38. -/
theorem record_kHeaderSize_layout :
    BlobLogRecord.kHeaderSize = 4 + 4 + 4 + 8 + 8 + 8 + 1 + 1 ∧
    BlobLogRecord.kHeaderSize = 38 := by
  decide

/-- Claim C2: at the failing input the code diverges from the claim.
A record whose TTL field holds the kNoExpiration sentinel (the maximum
64-bit value) still reports HasTTL = true, because the source compares
the 64-bit field against the maximum 32-bit value; and a record whose
TTL field is the 32-bit maximum, which differs from the sentinel,
reports HasTTL = false. -/
theorem hasTTL_wrong_sentinel :
    (⟨0, 0, 0, 0, 0, kNoExpiration, 0, 0, [], []⟩ : BlobLogRecord).HasTTL
      = true ∧
    kNoExpiration = 2 ^ 64 - 1 ∧
    (⟨0, 0, 0, 0, 0, uint32Max, 0, 0, [], []⟩ : BlobLogRecord).HasTTL
      = false ∧
    uint32Max ≠ 2 ^ 64 - 1 := by
  decide

/-- Claim C3: at the failing input the code diverges from the claim.
A footer whose TTL range is present with value (5, 10) reports
HasTTL = true, yet GetTTLRange returns (0, 0) because the non-null
branch of the source lacks a return statement. -/
theorem getTTLRange_ignores_stored_range :
    (⟨0, 1, some (5, 10), none, (0, 0)⟩ : BlobLogFooter).HasTTL = true ∧
    (⟨0, 1, some (5, 10), none, (0, 0)⟩ : BlobLogFooter).GetTTLRange
      = (0, 0) ∧
    ((5, 10) : Nat × Nat) ≠ (0, 0) := by
  decide

/-- Claim C5: appending with a sequence number strictly below the
maximum appended so far fails with SequenceOrderViolation and returns
the writer state unchanged, so no running aggregate (TTL range,
timestamp range, sequence-number range, record count) is mutated. -/
theorem append_seq_violation (w : WriterState) (key blob : List Nat)
    (ttlOpt : Option Nat) (ts sq lo hi : Nat)
    (hclosed : w.closed = false) (hsn : w.sn_range = some (lo, hi))
    (hlt : sq < hi) :
    w.append key blob ttlOpt ts sq =
      (w, Except.error AppendError.SequenceOrderViolation) := by
  simp [WriterState.append, hclosed, hsn, hlt]

/-- Claim C5 witness: a concrete out-of-order append. -/
theorem append_seq_violation_witness :
    WriterState.append ⟨false, 1, some (3, 9), none, none, 82⟩ [1] [2]
      none 0 5 =
      (⟨false, 1, some (3, 9), none, none, 82⟩,
        Except.error AppendError.SequenceOrderViolation) :=
  append_seq_violation ⟨false, 1, some (3, 9), none, none, 82⟩ [1] [2]
    none 0 5 3 9 rfl rfl (by decide)

/-- Claim C6: closing a writer that appended nothing emits a footer
with record count 0 and both optional ranges absent, and the range
accessors of such a footer, and of a header with absent hints, yield
the (0, 0) sentinel pair rather than an error. -/
theorem zero_record_footer (h : BlobLogHeader)
    (ht : h.ttl_guess = none) (hs : h.ts_guess = none) :
    (WriterState.close openWriter).2 =
      Except.ok ⟨kMagicNumber, 0, none, none, (0, 0)⟩ ∧
    (⟨kMagicNumber, 0, none, none, (0, 0)⟩ : BlobLogFooter).GetBlobCount
      = 0 ∧
    (⟨kMagicNumber, 0, none, none, (0, 0)⟩ : BlobLogFooter).HasTTL
      = false ∧
    (⟨kMagicNumber, 0, none, none, (0, 0)⟩ : BlobLogFooter).HasTimestamp
      = false ∧
    (⟨kMagicNumber, 0, none, none, (0, 0)⟩ : BlobLogFooter).GetTTLRange
      = (0, 0) ∧
    (⟨kMagicNumber, 0, none, none, (0, 0)⟩ : BlobLogFooter).GetTimeRange
      = (0, 0) ∧
    h.ttl_range = (0, 0) ∧ h.ts_range = (0, 0) := by
  refine ⟨rfl, rfl, rfl, rfl, rfl, rfl, ?_, ?_⟩
  · simp [BlobLogHeader.ttl_range, ht]
  · simp [BlobLogHeader.ts_range, hs]

/-- Claim C6 witness: instantiated at the header written at open time. -/
theorem zero_record_footer_witness :
    (WriterState.close openWriter).2 =
      Except.ok ⟨kMagicNumber, 0, none, none, (0, 0)⟩ ∧
    (⟨kMagicNumber, 0, none, none, (0, 0)⟩ : BlobLogFooter).GetBlobCount
      = 0 ∧
    (⟨kMagicNumber, 0, none, none, (0, 0)⟩ : BlobLogFooter).HasTTL
      = false ∧
    (⟨kMagicNumber, 0, none, none, (0, 0)⟩ : BlobLogFooter).HasTimestamp
      = false ∧
    (⟨kMagicNumber, 0, none, none, (0, 0)⟩ : BlobLogFooter).GetTTLRange
      = (0, 0) ∧
    (⟨kMagicNumber, 0, none, none, (0, 0)⟩ : BlobLogFooter).GetTimeRange
      = (0, 0) ∧
    (writtenHeader 0).ttl_range = (0, 0) ∧
    (writtenHeader 0).ts_range = (0, 0) :=
  zero_record_footer (writtenHeader 0) rfl rfl

/-- Claim C7 counterexample: the footer emitted by closing a freshly
opened writer carries a magic field equal to the magic field of the
header written at open time, refuting that a footer magic field never
equals a header magic field. -/
theorem footer_magic_equals_header_magic :
    (WriterState.close openWriter).2 =
      Except.ok ⟨kMagicNumber, 0, none, none, (0, 0)⟩ ∧
    (⟨kMagicNumber, 0, none, none, (0, 0)⟩ : BlobLogFooter).magic_number
      = (writtenHeader 0).magic_number := by
  exact ⟨rfl, rfl⟩

/-- Claim C7 (amended): the source declares a single magic constant
kMagicNumber for the whole format, so every footer the writer emits
carries exactly the same magic number as the header written at open
time. -/
theorem blob_log_shared_magic (c : Nat) (w : WriterState)
    (f : BlobLogFooter) (hw : w.closed = false)
    (hf : (WriterState.close w).2 = Except.ok f) :
    f.magic_number = (writtenHeader c).magic_number ∧
    f.magic_number = kMagicNumber := by
  simp [WriterState.close, hw] at hf
  rw [← hf]
  exact ⟨rfl, rfl⟩

/-- Claim C7 (amended) witness: at the freshly opened writer. -/
theorem blob_log_shared_magic_witness :
    (⟨kMagicNumber, 0, none, none, (0, 0)⟩ : BlobLogFooter).magic_number
      = (writtenHeader 0).magic_number ∧
    (⟨kMagicNumber, 0, none, none, (0, 0)⟩ : BlobLogFooter).magic_number
      = kMagicNumber :=
  blob_log_shared_magic 0 openWriter ⟨kMagicNumber, 0, none, none, (0, 0)⟩
    rfl rfl

/-- Claim C8: the fixed file header occupies exactly 44 bytes and the
fixed file footer occupies exactly 64 bytes. -/
theorem file_header_footer_sizes :
    BlobLogHeader.kHeaderSize = 44 ∧ BlobLogFooter.kFooterSize = 64 := by
  decide

/-- Claim C9: the record type tag takes the values full = 0, first = 1,
middle = 2, last = 3 and the record subtype tag takes the values
regular = 0, has_ttl = 1, has_timestamp = 2. -/
theorem record_type_subtype_values :
    kFullType = 0 ∧ kFirstType = 1 ∧ kMiddleType = 2 ∧ kLastType = 3 ∧
    kRegularType = 0 ∧ kTTLType = 1 ∧ kTimestampType = 2 := by
  decide

/-- Claim C10: a header with an absent TTL hint (respectively timestamp
hint) yields (0, 0) from the range accessor, a header with a present
zero-valued range yields the very same accessor value, and only HasTTL
and HasTimestamp distinguish the two cases. -/
theorem header_absent_range_sentinels (h h2 : BlobLogHeader)
    (hn : h.ttl_guess = none) (hm : h.ts_guess = none)
    (h2t : h2.ttl_guess = some (0, 0)) (h2s : h2.ts_guess = some (0, 0)) :
    h.ttl_range = (0, 0) ∧ h.ts_range = (0, 0) ∧
    h2.ttl_range = h.ttl_range ∧ h2.ts_range = h.ts_range ∧
    h.HasTTL = false ∧ h.HasTimestamp = false ∧
    h2.HasTTL = true ∧ h2.HasTimestamp = true := by
  simp [BlobLogHeader.ttl_range, BlobLogHeader.ts_range,
    BlobLogHeader.HasTTL, BlobLogHeader.HasTimestamp, hn, hm, h2t, h2s]

/-- Claim C10 witness: at concrete headers with absent and with
zero-valued present hints. -/
theorem header_absent_range_sentinels_witness :
    (⟨0, 1, 0, none, none⟩ : BlobLogHeader).ttl_range = (0, 0) ∧
    (⟨0, 1, 0, none, none⟩ : BlobLogHeader).ts_range = (0, 0) ∧
    (⟨0, 1, 0, some (0, 0), some (0, 0)⟩ : BlobLogHeader).ttl_range =
      (⟨0, 1, 0, none, none⟩ : BlobLogHeader).ttl_range ∧
    (⟨0, 1, 0, some (0, 0), some (0, 0)⟩ : BlobLogHeader).ts_range =
      (⟨0, 1, 0, none, none⟩ : BlobLogHeader).ts_range ∧
    (⟨0, 1, 0, none, none⟩ : BlobLogHeader).HasTTL = false ∧
    (⟨0, 1, 0, none, none⟩ : BlobLogHeader).HasTimestamp = false ∧
    (⟨0, 1, 0, some (0, 0), some (0, 0)⟩ : BlobLogHeader).HasTTL = true ∧
    (⟨0, 1, 0, some (0, 0), some (0, 0)⟩ : BlobLogHeader).HasTimestamp
      = true :=
  header_absent_range_sentinels ⟨0, 1, 0, none, none⟩
    ⟨0, 1, 0, some (0, 0), some (0, 0)⟩ rfl rfl rfl rfl
